import Mathlib

/-!
Verification of the `doom-cli` repository (`playdoom` package).

The program has two source files:

* `src/playdoom/config.py` — a configuration store: a fixed template
  string `EXAMPLE_CONFIG`, `init()` (create the per-user configuration
  directory with all parents, then write the template to `config.toml`,
  overwriting it), and `load()` (open `config.toml` read-only in binary
  mode and parse it with Python's `tomllib`).
* `src/playdoom/__main__.py` — the entry point: `try: print(config.load())
  except IOError: config.init()`.

We embed the program shallowly.  The filesystem is a small state record
(the configuration directory, the single file `config.toml`, and
permission bits modelling the OS errors the spec talks about).  Python's
`tomllib` is an external library; we model it by an executable parser
`parseToml` for the TOML fragment the program and spec exercise
(comments, blank lines, `[dotted.table]` headers, `key = value` lines
with basic strings, booleans and arrays).  `tomllib.TOMLDecodeError` is
a subclass of `ValueError`, not of `OSError`/`IOError`; the error type
`LoadErr` keeps the two classes apart, which is what the entry point's
`except IOError` handler branches on.
-/

namespace Playdoom

/-- In-memory TOML value, as produced by `tomllib.load`: Python strings,
booleans, lists and dicts (tables kept as association lists in insertion
order, matching dict insertion order). -/
inductive TomlValue where
  | str (s : String)
  | boolean (b : Bool)
  | arr (vs : List TomlValue)
  | table (kvs : List (String × TomlValue))
deriving Repr

/-- A parsed document: the top-level table, keys in insertion order. -/
abbrev Toml := List (String × TomlValue)

/-- Whitespace inside a TOML line (space, tab, carriage return). -/
def isWS (c : Char) : Bool := c == ' ' || c == '\t' || c == '\r'

/-- Strip leading and trailing whitespace of a line. -/
def stripWS (cs : List Char) : List Char :=
  ((cs.dropWhile isWS).reverse.dropWhile isWS).reverse

/-- Characters allowed in a TOML bare key. -/
def isBareChar (c : Char) : Bool :=
  c.isAlphanum || c == '_' || c == '-'

/-- Split a character list on a separator character. -/
def splitOnChar (sep : Char) : List Char → List (List Char)
  | [] => [[]]
  | c :: cs =>
    let r := splitOnChar sep cs
    if c == sep then [] :: r
    else
      match r with
      | [] => [[c]]
      | h :: t => (c :: h) :: t

/-- Parse a dotted key (`engines.example`): each dot-separated part,
stripped, must be a nonempty bare key. -/
def parseKeyPath (cs : List Char) : Option (List String) :=
  let parts := (splitOnChar '.' cs).map stripWS
  if parts.all (fun p => !p.isEmpty && p.all isBareChar) then
    some (parts.map (fun p => String.mk p))
  else
    none

/-- Parse the rest of a basic string literal (after the opening quote),
returning the string contents and the characters after the closing
quote.  Supports the escapes the TOML fragment needs. -/
def parseStringLit : List Char → Option (String × List Char)
  | [] => none
  | '\\' :: c :: rest =>
    let esc : Option Char :=
      if c == 'n' then some '\n'
      else if c == 't' then some '\t'
      else if c == 'r' then some '\r'
      else if c == '"' then some '"'
      else if c == '\\' then some '\\'
      else none
    match esc with
    | none => none
    | some e => (parseStringLit rest).map (fun (s, r) => (String.mk (e :: s.data), r))
  | '\\' :: [] => none
  | '"' :: rest => some ("", rest)
  | c :: rest => (parseStringLit rest).map (fun (s, r) => (String.mk (c :: s.data), r))

mutual

/-- Parse one TOML value (basic string, boolean, or array), returning
the value and the remaining characters.  `fuel` bounds the nesting. -/
def parseValue : Nat → List Char → Option (TomlValue × List Char)
  | 0, _ => none
  | fuel + 1, cs =>
    match cs.dropWhile isWS with
    | '"' :: rest => (parseStringLit rest).map (fun (s, r) => (.str s, r))
    | '[' :: rest => parseArrayElems fuel rest []
    | cs' =>
      if cs'.take 4 == ['t', 'r', 'u', 'e'] then
        some (.boolean true, cs'.drop 4)
      else if cs'.take 5 == ['f', 'a', 'l', 's', 'e'] then
        some (.boolean false, cs'.drop 5)
      else none

/-- Parse the elements of an array after the opening bracket;
`acc` holds the elements read so far, in reverse.  A trailing comma
before the closing bracket is allowed, as in TOML. -/
def parseArrayElems : Nat → List Char → List TomlValue → Option (TomlValue × List Char)
  | 0, _, _ => none
  | fuel + 1, cs, acc =>
    match cs.dropWhile isWS with
    | ']' :: rest => some (.arr acc.reverse, rest)
    | cs' =>
      match parseValue fuel cs' with
      | none => none
      | some (v, rest) =>
        match rest.dropWhile isWS with
        | ',' :: rest2 => parseArrayElems fuel rest2 (v :: acc)
        | ']' :: rest2 => some (.arr (v :: acc).reverse, rest2)
        | _ => none

end

/-- Look up a key in a table (first binding wins, as keys are unique). -/
def lookupKey (kvs : List (String × TomlValue)) (k : String) : Option TomlValue :=
  match kvs with
  | [] => none
  | (k', v) :: rest => if k' == k then some v else lookupKey rest k

/-- Replace the binding of `k` (known present) by `v`, keeping order. -/
def setKey (kvs : List (String × TomlValue)) (k : String) (v : TomlValue) :
    List (String × TomlValue) :=
  match kvs with
  | [] => []
  | (k', v') :: rest =>
    if k' == k then (k', v) :: rest else (k', v') :: setKey rest k v

/-- Insert `k = v` into the table reached by descending `path` from
`kvs`, creating intermediate tables as needed.  Fails (like `tomllib`)
if a path component is bound to a non-table or `k` is already bound. -/
def insertAt (kvs : List (String × TomlValue)) (path : List String) (k : String)
    (v : TomlValue) : Option (List (String × TomlValue)) :=
  match path with
  | [] =>
    match lookupKey kvs k with
    | some _ => none
    | none => some (kvs ++ [(k, v)])
  | p :: ps =>
    match lookupKey kvs p with
    | none => (insertAt [] ps k v).map (fun sub => kvs ++ [(p, .table sub)])
    | some (.table sub) => (insertAt sub ps k v).map (fun sub' => setKey kvs p (.table sub'))
    | some _ => none

/-- Make sure the table at `path` exists (for a `[header]` line),
creating intermediate tables; fails if a component is a non-table. -/
def ensurePath (kvs : List (String × TomlValue)) (path : List String) :
    Option (List (String × TomlValue)) :=
  match path with
  | [] => some kvs
  | p :: ps =>
    match lookupKey kvs p with
    | none => (ensurePath [] ps).map (fun sub => kvs ++ [(p, .table sub)])
    | some (.table sub) => (ensurePath sub ps).map (fun sub' => setKey kvs p (.table sub'))
    | some _ => none

/-- Split a line at the first occurrence of `sep`. -/
def splitFirst (sep : Char) : List Char → Option (List Char × List Char)
  | [] => none
  | c :: cs =>
    if c == sep then some ([], cs)
    else (splitFirst sep cs).map (fun (l, r) => (c :: l, r))

/-- Process the lines of a document.  `curPath` is the table opened by
the last `[header]` line (initially the root), `doc` the document built
so far. -/
def parseLines : List (List Char) → List String → Toml → Option Toml
  | [], _, doc => some doc
  | line :: rest, curPath, doc =>
    match stripWS line with
    | [] => parseLines rest curPath doc
    | '#' :: _ => parseLines rest curPath doc
    | '[' :: l1 =>
      match l1.reverse with
      | ']' :: innerRev =>
        match parseKeyPath innerRev.reverse with
        | none => none
        | some path =>
          match ensurePath doc path with
          | none => none
          | some doc' => parseLines rest path doc'
      | _ => none
    | l =>
      match splitFirst '=' l with
      | none => none
      | some (kpart, vpart) =>
        let key := stripWS kpart
        if !key.isEmpty && key.all isBareChar then
          match parseValue (vpart.length + 1) vpart with
          | none => none
          | some (v, restChars) =>
            if stripWS restChars == [] then
              match insertAt doc curPath (String.mk key) v with
              | none => none
              | some doc' => parseLines rest curPath doc'
            else none
        else none

/-- Model of `tomllib.load` on the file's text: split into lines and
process them; `none` models `tomllib.TOMLDecodeError`. -/
def parseToml (s : String) : Option Toml :=
  parseLines ((splitOnChar '\n' s.data).map id) [] []

/-- The template written by `init` (`config.py`, `EXAMPLE_CONFIG`):
the Python triple-quoted string after `.lstrip()`. -/
def EXAMPLE_CONFIG : String :=
"# Example configuration file
# Lines starting with '#' are comments
[engines.example]
# Name(s) to identify the engine, required
names = [\"example\", \"ex\"]
# Path to the engine executable, required
run = \"/path/to/engine.exe\"
# Valid kinds:
# - Vanilla: Vanilla Doom (e.g. Chocolate Doom, Crispy Doom)
# - Boom: Boom-compatible ports (e.g. ReBoom)
# - MBF: MBF-compatible ports (e.g. PrBoom+, dsda-doom)
# - Eternity: Eternity Engine
# - ZDoom: ZDoom-based ports (e.g. GZDoom, Zandronum)
kind = \"Vanilla\"
# Any additional arguments to pass to the engine
extra_args = []
# When adding files, use -merge instead of -file
use_merge_arg = false
"

/-! ## Filesystem model

The program touches exactly one directory (`DIRS.user_config_path`,
resolved by `platformdirs` for the fixed identifier "doom-cli") and one
file in it, `config.toml`.  The state records whether the directory
exists, the file (if present) with its content and a readability bit
(modelling `PermissionError` on `open(..., "rb")`), and permission bits
for creating the directory and writing the file (modelling the OS
errors `mkdir` and `open(..., "w")` can raise). -/

/-- `config.toml`, when present: its bytes and whether the process may
open it for reading. -/
structure FileState where
  content : String
  readable : Bool
deriving Repr

/-- The filesystem state visible to the program. -/
structure FS where
  /-- the configuration directory `<platform-config-dir>/doom-cli` exists -/
  dirExists : Bool
  /-- `config.toml` inside it, if present -/
  file : Option FileState
  /-- the OS permits creating the directory (and its parents) -/
  canCreateDir : Bool
  /-- the OS permits opening `config.toml` for writing -/
  canWriteFile : Bool
deriving Repr

/-- The kinds of `OSError` (= `IOError`) the program can meet. -/
inductive IOErrKind where
  | notFound
  | permissionDenied
deriving Repr, DecidableEq

/-- What `load()` can raise: an `OSError`/`IOError` (caught by the
entry point) or a `tomllib.TOMLDecodeError` (a `ValueError`, not
caught). -/
inductive LoadErr where
  | ioError (k : IOErrKind)
  | parseError
deriving Repr, DecidableEq

/-- `config.load()`:
`open(DIRS.user_config_path / "config.toml", "rb")` then
`tomllib.load(f)`.  Opening a read-only handle mutates nothing, so the
returned state is the input state. -/
def load (fs : FS) : FS × Except LoadErr Toml :=
  match fs.file with
  | none => (fs, .error (.ioError .notFound))
  | some f =>
    if f.readable then
      match parseToml f.content with
      | some doc => (fs, .ok doc)
      | none => (fs, .error .parseError)
    else
      (fs, .error (.ioError .permissionDenied))

/-- `DIRS.user_config_path.mkdir(parents=True, exist_ok=True)`:
succeeds silently when the directory exists; otherwise creates it (with
all parents) or raises an `OSError`. -/
def mkdirParents (fs : FS) : FS × Option IOErrKind :=
  if fs.dirExists then (fs, none)
  else if fs.canCreateDir then ({ fs with dirExists := true }, none)
  else (fs, some .permissionDenied)

/-- `open(path, "w")` + `f.write(EXAMPLE_CONFIG)`: truncate/create the
file and write the template, or raise an `OSError`. -/
def writeConfig (fs : FS) : FS × Option IOErrKind :=
  if fs.canWriteFile then
    ({ fs with file := some { content := EXAMPLE_CONFIG, readable := true } }, none)
  else
    (fs, some .permissionDenied)

/-- `config.init()`: mkdir then write; the first error aborts the rest
and is raised to the caller (the partial state is kept). -/
def init (fs : FS) : FS × Option IOErrKind :=
  match mkdirParents fs with
  | (fs1, some k) => (fs1, some k)
  | (fs1, none) => writeConfig fs1

/-- Observable outcome of one invocation of the entry point. -/
inductive MainOutcome where
  | printed (doc : Toml)
  | initialized
  | initFailed (k : IOErrKind)
  | crashedParse
deriving Repr

/-- `__main__.main()`: `try: print(config.load()) except IOError:
config.init()`.  An `IOError` from `load` selects the `init` branch;
an error from `init` itself, or a `TOMLDecodeError` from `load`, is
unhandled and terminates the process with a nonzero status
(`initFailed` / `crashedParse`). -/
def main (fs : FS) : FS × MainOutcome :=
  match load fs with
  | (fs', .ok doc) => (fs', .printed doc)
  | (fs', .error (.ioError _)) =>
    match init fs' with
    | (fs'', none) => (fs'', .initialized)
    | (fs'', some k) => (fs'', .initFailed k)
  | (fs', .error .parseError) => (fs', .crashedParse)

/-- The document `tomllib.load` yields for `EXAMPLE_CONFIG`. -/
def exampleDoc : Toml :=
  [("engines", .table
    [("example", .table
      [("names", .arr [.str "example", .str "ex"]),
       ("run", .str "/path/to/engine.exe"),
       ("kind", .str "Vanilla"),
       ("extra_args", .arr []),
       ("use_merge_arg", .boolean false)])])]

/-! ## Concrete states used as witnesses and counterexamples -/

/-- Fresh environment: no configuration directory, no file, the OS
grants all permissions (first run). -/
def fsEmpty : FS :=
  { dirExists := false, file := none, canCreateDir := true, canWriteFile := true }

/-- The state just after a successful first run: the template on disk. -/
def fsTemplate : FS :=
  { dirExists := true, file := some { content := EXAMPLE_CONFIG, readable := true },
    canCreateDir := true, canWriteFile := true }

/-- The one-engine document of spec property P3. -/
def p3Config : String :=
"[engines.ex]
names = [\"ex\"]
run = \"/bin/x\"
kind = \"Vanilla\"
extra_args = []
use_merge_arg = false
"

/-- The mapping `tomllib` produces for `p3Config`. -/
def p3Doc : Toml :=
  [("engines", .table
    [("ex", .table
      [("names", .arr [.str "ex"]),
       ("run", .str "/bin/x"),
       ("kind", .str "Vanilla"),
       ("extra_args", .arr []),
       ("use_merge_arg", .boolean false)])])]

/-- State holding the P3 document. -/
def fsP3 : FS :=
  { dirExists := true, file := some { content := p3Config, readable := true },
    canCreateDir := true, canWriteFile := true }

/-- A malformed (unterminated table header) but readable config file. -/
def fsBadReadable : FS :=
  { dirExists := true, file := some { content := "[engines.example", readable := true },
    canCreateDir := true, canWriteFile := true }

/-- The same malformed content, but the file is not readable
(e.g. owned by another user): `open` raises `PermissionError` before
`tomllib` ever sees the content. -/
def fsBadUnreadable : FS :=
  { dirExists := true, file := some { content := "[engines.example", readable := false },
    canCreateDir := true, canWriteFile := true }

/-- A well-formed config whose engine entry omits the optional fields
`extra_args` and `use_merge_arg`. -/
def c8Config : String :=
"[engines.e]
names = [\"e\"]
run = \"/bin/x\"
kind = \"Vanilla\"
"

/-- The engine table `tomllib` produces for `c8Config`'s entry `e`. -/
def engineTable8 : List (String × TomlValue) :=
  [("names", .arr [.str "e"]),
   ("run", .str "/bin/x"),
   ("kind", .str "Vanilla")]

/-- The mapping `tomllib` produces for `c8Config`. -/
def doc8 : Toml := [("engines", .table [("e", .table engineTable8)])]

/-- State holding `c8Config`. -/
def fsC8 : FS :=
  { dirExists := true, file := some { content := c8Config, readable := true },
    canCreateDir := true, canWriteFile := true }

/-- A state with some stale prior file content. -/
def fsPrev : FS :=
  { dirExists := true, file := some { content := "old junk, not even toml [", readable := true },
    canCreateDir := true, canWriteFile := true }

/-- No directory and no permission to create one. -/
def fsNoDirPerm : FS :=
  { dirExists := false, file := none, canCreateDir := false, canWriteFile := true }

/-- Directory present but the file cannot be opened for writing. -/
def fsNoWrite : FS :=
  { dirExists := true, file := none, canCreateDir := true, canWriteFile := false }

/-- An empty (zero-byte) config file. -/
def fsEmptyFile : FS :=
  { dirExists := true, file := some { content := "", readable := true },
    canCreateDir := true, canWriteFile := true }

/-- A well-formed config with no `engines` table at all. -/
def fsNoEngines : FS :=
  { dirExists := true, file := some { content := "[other]\nx = true\n", readable := true },
    canCreateDir := true, canWriteFile := true }

/-- A well-formed config whose engine entry omits every required field
(`names`, `run`, `kind`). -/
def fsMissingReq : FS :=
  { dirExists := true, file := some { content := "[engines.e]\nuse_merge_arg = true\n", readable := true },
    canCreateDir := true, canWriteFile := true }

/-- A readable file with a key but no value — malformed. -/
def fsBadValue : FS :=
  { dirExists := true, file := some { content := "kind = ", readable := true },
    canCreateDir := true, canWriteFile := true }

/-! ## Shared lemmas -/

/-- `load` returns the state it was given, in every branch. -/
theorem load_fst (fs : FS) : (load fs).1 = fs := by
  unfold load
  rcases fs.file with _ | f
  · rfl
  · cases hr : f.readable
    · simp [hr]
    · cases hp : parseToml f.content <;> simp [hr, hp]

theorem load_eq (fs : FS) : load fs = (fs, (load fs).2) := by
  have h := load_fst fs
  cases hl : load fs
  rw [hl] at h
  simp_all

theorem load_of_none (fs : FS) (hf : fs.file = none) :
    load fs = (fs, .error (.ioError .notFound)) := by
  unfold load
  rw [hf]

theorem load_of_unreadable (fs : FS) (f : FileState) (hf : fs.file = some f)
    (hr : f.readable = false) :
    load fs = (fs, .error (.ioError .permissionDenied)) := by
  unfold load
  rw [hf]
  simp [hr]

theorem load_of_parse_ok (fs : FS) (f : FileState) (doc : Toml) (hf : fs.file = some f)
    (hr : f.readable = true) (hp : parseToml f.content = some doc) :
    load fs = (fs, .ok doc) := by
  unfold load
  rw [hf]
  simp [hr, hp]

theorem load_of_parse_fail (fs : FS) (f : FileState) (hf : fs.file = some f)
    (hr : f.readable = true) (hp : parseToml f.content = none) :
    load fs = (fs, .error .parseError) := by
  unfold load
  rw [hf]
  simp [hr, hp]

/-- Successful `init` ends with the directory present and the template
on disk, the permission bits untouched. -/
theorem init_ok (fs : FS) (hd : fs.dirExists = true ∨ fs.canCreateDir = true)
    (hw : fs.canWriteFile = true) :
    init fs = ({ fs with
                 dirExists := true
                 file := some { content := EXAMPLE_CONFIG, readable := true } }, none) := by
  unfold init mkdirParents writeConfig
  cases hde : fs.dirExists <;> rcases hd with hd | hd <;>
    simp_all

/-- If `init` reports no error, the three permission facts held. -/
theorem init_snd_none (fs : FS) (h : (init fs).2 = none) :
    (fs.dirExists = true ∨ fs.canCreateDir = true) ∧ fs.canWriteFile = true := by
  unfold init mkdirParents writeConfig at h
  cases hde : fs.dirExists <;> cases hc : fs.canCreateDir <;>
    cases hw : fs.canWriteFile <;> simp_all

theorem parse_example : parseToml EXAMPLE_CONFIG = some exampleDoc := rfl

/-- One invocation of the entry point takes exactly one of three paths:
print the loaded document, crash on a parse error, or fall back to a
single `init` call (which either succeeds or crashes). -/
theorem main_cases (fs : FS) :
    (∃ doc, (load fs).2 = .ok doc ∧ main fs = (fs, .printed doc)) ∨
    ((load fs).2 = .error .parseError ∧ main fs = (fs, .crashedParse)) ∨
    (∃ k, (load fs).2 = .error (.ioError k) ∧ (main fs).1 = (init fs).1 ∧
      ((main fs).2 = .initialized ∨ ∃ e, (main fs).2 = .initFailed e)) := by
  rcases hr : (load fs).2 with err | doc
  · cases err with
    | ioError k =>
      have hl : load fs = (fs, .error (.ioError k)) := by rw [load_eq fs, hr]
      rcases hini : init fs with ⟨fs1, e⟩
      cases e with
      | none =>
        refine .inr (.inr ⟨k, rfl, ?_, .inl ?_⟩) <;> simp [main, hl, hini]
      | some e1 =>
        refine .inr (.inr ⟨k, rfl, ?_, .inr ⟨e1, ?_⟩⟩) <;> simp [main, hl, hini]
    | parseError =>
      have hl : load fs = (fs, .error .parseError) := by rw [load_eq fs, hr]
      exact .inr (.inl ⟨rfl, by unfold main; rw [hl]⟩)
  · have hl : load fs = (fs, .ok doc) := by rw [load_eq fs, hr]
    exact .inl ⟨doc, rfl, by unfold main; rw [hl]⟩

/-! ## The claims -/

/-- C1: on every invocation of the entry point, if `load` returns a
document then that document is printed and `init` is not called (the
state is untouched); if `load` raises an I/O-class error of any kind
then the handler calls `init` exactly once — state and outcome are
those of a single `init` call — without reporting the load error and
without re-attempting `load`. -/
theorem main_dispatch (fs : FS) :
    (∀ doc, (load fs).2 = .ok doc → main fs = (fs, .printed doc)) ∧
    (∀ k, (load fs).2 = .error (.ioError k) →
      ((init fs).2 = none → main fs = ((init fs).1, .initialized)) ∧
      (∀ e, (init fs).2 = some e → main fs = ((init fs).1, .initFailed e))) := by
  refine ⟨?_, ?_⟩
  · intro doc h
    have hl : load fs = (fs, .ok doc) := by rw [load_eq fs, h]
    unfold main
    rw [hl]
  · intro k h
    have hl : load fs = (fs, .error (.ioError k)) := by rw [load_eq fs, h]
    rcases hini : init fs with ⟨fs1, e⟩
    cases e with
    | none =>
      refine ⟨fun _ => ?_, fun e2 he => ?_⟩
      · simp [main, hl, hini]
      · simp at he
    | some e1 =>
      refine ⟨fun hi => ?_, fun e2 he => ?_⟩
      · simp at hi
      · have he2 : e1 = e2 := by simpa using he
        subst he2
        simp [main, hl, hini]

/-- C1 witness: the three paths at concrete states — a template file is
printed; a fresh environment silently initializes; a fresh environment
without permissions crashes in `init`. -/
theorem main_dispatch_witness :
    main fsTemplate = (fsTemplate, .printed exampleDoc) ∧
    main fsEmpty = ((init fsEmpty).1, .initialized) ∧
    main fsNoDirPerm = ((init fsNoDirPerm).1, .initFailed .permissionDenied) :=
  ⟨(main_dispatch fsTemplate).1 exampleDoc rfl,
   ((main_dispatch fsEmpty).2 .notFound rfl).1 rfl,
   ((main_dispatch fsNoDirPerm).2 .notFound rfl).2 .permissionDenied rfl⟩

/-- C2 counterexample: the claim quantifies over every config file with
malformed content, but a malformed file that is unreadable makes
`open` raise `PermissionError` before `tomllib` runs, so the handler
catches it and falls back to `init` — the process does not terminate
with a parse error and the fallback does happen. -/
theorem main_parse_claim_cex :
    (∃ f, fsBadUnreadable.file = some f ∧ parseToml f.content = none) ∧
    main fsBadUnreadable = ((init fsBadUnreadable).1, .initialized) ∧
    (main fsBadUnreadable).2 ≠ .crashedParse := by
  refine ⟨⟨_, rfl, rfl⟩, rfl, ?_⟩
  intro h
  have h2 : MainOutcome.initialized = MainOutcome.crashedParse := h
  exact MainOutcome.noConfusion h2

/-- C2 (amended: the file must also be readable): for every config file
that exists, is readable, and whose content is not well-formed TOML,
the entry point crashes with the uncaught parse error — `init` is not
called and the state is untouched. -/
theorem main_parse_error_crashes (fs : FS) (f : FileState)
    (hf : fs.file = some f) (hr : f.readable = true)
    (hp : parseToml f.content = none) :
    main fs = (fs, .crashedParse) := by
  have hl := load_of_parse_fail fs f hf hr hp
  unfold main
  rw [hl]

/-- C2 witness: a readable file with an unterminated table header
crashes the entry point. -/
theorem main_parse_error_crashes_witness :
    main fsBadReadable = (fsBadReadable, .crashedParse) :=
  main_parse_error_crashes fsBadReadable _ rfl rfl rfl

/-- C3: whenever the directory exists or may be created and the file
may be written, `init` ends with the directory present and `config.toml`
holding exactly the template, whatever was there before; when directory
creation fails the error is returned un-caught, likewise when the write
fails; and an `init` failure inside the entry point's fallback crashes
the process. -/
theorem init_spec :
    (∀ fs, (fs.dirExists = true ∨ fs.canCreateDir = true) → fs.canWriteFile = true →
      init fs = ({ fs with
                   dirExists := true
                   file := some { content := EXAMPLE_CONFIG, readable := true } }, none)) ∧
    (∀ fs, fs.dirExists = false → fs.canCreateDir = false →
      init fs = (fs, some .permissionDenied)) ∧
    (∀ fs, (fs.dirExists = true ∨ fs.canCreateDir = true) → fs.canWriteFile = false →
      (init fs).2 = some .permissionDenied) ∧
    (∀ fs k e, (load fs).2 = .error (.ioError k) → (init fs).2 = some e →
      main fs = ((init fs).1, .initFailed e)) := by
  refine ⟨init_ok, ?_, ?_, ?_⟩
  · intro fs hd hc
    unfold init mkdirParents writeConfig
    simp [hd, hc]
  · intro fs hd hw
    unfold init mkdirParents writeConfig
    cases hde : fs.dirExists <;> rcases hd with hd | hd <;> simp_all
  · intro fs k e hio hie
    have hl : load fs = (fs, .error (.ioError k)) := by rw [load_eq fs, hio]
    rcases hini : init fs with ⟨fs1, e'⟩
    cases e' with
    | none =>
      rw [hini] at hie
      simp at hie
    | some e1 =>
      have he2 : e1 = e := by
        rw [hini] at hie
        simpa using hie
      subst he2
      simp [main, hl, hini]

/-- C3 witness: a fresh environment gets the template; creation and
write failures surface; a write failure crashes the fallback. -/
theorem init_spec_witness :
    init fsEmpty = ({ fsEmpty with
                      dirExists := true
                      file := some { content := EXAMPLE_CONFIG, readable := true } }, none) ∧
    init fsNoDirPerm = (fsNoDirPerm, some .permissionDenied) ∧
    (init fsNoWrite).2 = some .permissionDenied ∧
    main fsNoWrite = ((init fsNoWrite).1, .initFailed .permissionDenied) :=
  ⟨init_spec.1 fsEmpty (Or.inr rfl) rfl,
   init_spec.2.1 fsNoDirPerm rfl rfl,
   init_spec.2.2.1 fsNoWrite (Or.inl rfl) rfl,
   init_spec.2.2.2 fsNoWrite .notFound .permissionDenied rfl rfl⟩

/-- C4: after a successful `init` the file content is the fixed
template, whatever it was before; a second `init` succeeds and leaves
byte-identical content — overwrite, not merge. -/
theorem init_idempotent (fs : FS) (h : (init fs).2 = none) :
    (init fs).1.file = some { content := EXAMPLE_CONFIG, readable := true } ∧
    (init (init fs).1).2 = none ∧
    (init (init fs).1).1.file = some { content := EXAMPLE_CONFIG, readable := true } := by
  obtain ⟨hd, hw⟩ := init_snd_none fs h
  have h1 := init_ok fs hd hw
  have hfile : (init fs).1 = { fs with
                               dirExists := true
                               file := some { content := EXAMPLE_CONFIG, readable := true } } := by
    rw [h1]
  have h2 := init_ok (init fs).1 (Or.inl (by rw [hfile])) (by rw [hfile]; exact hw)
  refine ⟨by rw [hfile], by rw [h2], by rw [h2]⟩

/-- C4 witness: `init` on a state with stale junk content yields the
template, and again after a second call. -/
theorem init_idempotent_witness :
    (init fsPrev).2 = none ∧
    (init fsPrev).1.file = some { content := EXAMPLE_CONFIG, readable := true } ∧
    (init (init fsPrev).1).2 = none ∧
    (init (init fsPrev).1).1.file = some { content := EXAMPLE_CONFIG, readable := true } :=
  ⟨rfl, (init_idempotent fsPrev rfl).1, (init_idempotent fsPrev rfl).2.1,
   (init_idempotent fsPrev rfl).2.2⟩

/-- C5: round-trip fidelity — loading the one-engine P3 document gives
back every field exactly, and after any successful `init` the loaded
document is exactly the parsed template, with `engines.example`
carrying names, run, kind "Vanilla", empty extra_args and
use_merge_arg false as written. -/
theorem load_roundtrip :
    (load fsP3).2 = .ok p3Doc ∧
    (∀ fs, (init fs).2 = none → (load (init fs).1).2 = .ok exampleDoc) ∧
    lookupKey exampleDoc "engines" = some (.table
      [("example", .table
        [("names", .arr [.str "example", .str "ex"]),
         ("run", .str "/path/to/engine.exe"),
         ("kind", .str "Vanilla"),
         ("extra_args", .arr []),
         ("use_merge_arg", .boolean false)])]) := by
  refine ⟨rfl, ?_, rfl⟩
  intro fs h
  obtain ⟨hd, hw⟩ := init_snd_none fs h
  have h1 := init_ok fs hd hw
  have hf : (init fs).1.file = some { content := EXAMPLE_CONFIG, readable := true } := by
    rw [h1]
  have hl := load_of_parse_ok (init fs).1 _ exampleDoc hf rfl parse_example
  rw [hl]

/-- C5 witness: after initializing a fresh environment the loaded
document is the parsed template. -/
theorem load_roundtrip_witness :
    (init fsEmpty).2 = none ∧ (load (init fsEmpty).1).2 = .ok exampleDoc :=
  ⟨rfl, load_roundtrip.2.1 fsEmpty rfl⟩

/-- C6 counterexample: an existing file with malformed content that is
not readable makes `load` fail with a permission-denied I/O error, not
with a parse error — so "parse error exactly when the file exists and
its content is malformed" is false as stated. -/
theorem load_error_kinds_cex :
    (∃ f, fsBadUnreadable.file = some f ∧ parseToml f.content = none) ∧
    (load fsBadUnreadable).2 = .error (.ioError .permissionDenied) ∧
    (load fsBadUnreadable).2 ≠ .error .parseError := by
  refine ⟨⟨_, rfl, rfl⟩, rfl, ?_⟩
  intro h
  have h2 : (Except.error (LoadErr.ioError IOErrKind.permissionDenied) : Except LoadErr Toml) =
      Except.error LoadErr.parseError := h
  injection h2 with h3
  exact LoadErr.noConfusion h3

/-- C6 (amended: for states whose file, when present, is readable):
`load` fails with "not found" exactly when the file is absent, with a
parse error exactly when the file exists and its content is malformed,
and returns the parsed mapping when the file exists and parses. -/
theorem load_error_kinds (fs : FS)
    (hread : ∀ f, fs.file = some f → f.readable = true) :
    ((load fs).2 = .error (.ioError .notFound) ↔ fs.file = none) ∧
    ((load fs).2 = .error .parseError ↔
      ∃ f, fs.file = some f ∧ parseToml f.content = none) ∧
    (∀ f doc, fs.file = some f → parseToml f.content = some doc →
      (load fs).2 = .ok doc) := by
  rcases hf : fs.file with _ | f
  · have hl : (load fs).2 = .error (.ioError .notFound) := by rw [load_of_none fs hf]
    refine ⟨?_, ?_, ?_⟩
    · simp [hl, hf]
    · simp [hl, hf]
    · intro f doc hf2 _
      exact Option.noConfusion hf2
  · have hr := hread f hf
    rcases hp : parseToml f.content with _ | doc
    · have hl : (load fs).2 = .error .parseError := by rw [load_of_parse_fail fs f hf hr hp]
      refine ⟨?_, ?_, ?_⟩
      · simp [hl, hf]
      · exact ⟨fun _ => ⟨f, rfl, hp⟩, fun _ => hl⟩
      · intro f' doc hf' hp'
        obtain rfl := Option.some.inj hf'
        rw [hp] at hp'
        exact Option.noConfusion hp'
    · have hl : (load fs).2 = .ok doc := by rw [load_of_parse_ok fs f doc hf hr hp]
      refine ⟨?_, ?_, ?_⟩
      · simp [hl, hf]
      · simp [hl, hf, hp]
      · intro f' doc' hf' hp'
        obtain rfl := Option.some.inj hf'
        rw [hp] at hp'
        obtain rfl := Option.some.inj hp'
        exact hl

/-- C6 witness: the three kinds at concrete states — missing file,
readable malformed file, readable empty (well-formed) file. -/
theorem load_error_kinds_witness :
    (load fsEmpty).2 = .error (.ioError .notFound) ∧
    (load fsBadReadable).2 = .error .parseError ∧
    (load fsEmptyFile).2 = .ok [] :=
  ⟨(load_error_kinds fsEmpty (fun _ h => Option.noConfusion h)).1.mpr rfl,
   (load_error_kinds fsBadReadable
     (by intro f h; simp [fsBadReadable] at h; rw [← h])).2.1.mpr ⟨_, rfl, rfl⟩,
   (load_error_kinds fsEmptyFile
     (by intro f h; simp [fsEmptyFile] at h; rw [← h])).2.2 _ [] rfl rfl⟩

/-- C7: `load` mutates nothing — it returns the state it was given, and
an entry-point run that printed a document or crashed on a parse error
leaves the state exactly as it was. -/
theorem load_pure (fs : FS) :
    (load fs).1 = fs ∧
    ((main fs).2 = .crashedParse → (main fs).1 = fs) ∧
    (∀ doc, (main fs).2 = .printed doc → (main fs).1 = fs) := by
  refine ⟨load_fst fs, ?_, ?_⟩
  · intro h
    rcases main_cases fs with ⟨doc, _, hm⟩ | ⟨_, hm⟩ | ⟨k, _, _, ho⟩
    · rw [hm]
    · rw [hm]
    · rcases ho with h2 | ⟨e, h2⟩ <;> rw [h2] at h <;> exact MainOutcome.noConfusion h
  · intro doc h
    rcases main_cases fs with ⟨doc', _, hm⟩ | ⟨_, hm⟩ | ⟨k, _, _, ho⟩
    · rw [hm]
    · rw [hm]
    · rcases ho with h2 | ⟨e, h2⟩ <;> rw [h2] at h <;> exact MainOutcome.noConfusion h

/-- C7 witness: the frame conditions at concrete runs — a successful
print and a parse-error crash both leave the state untouched. -/
theorem load_pure_witness :
    (load fsTemplate).1 = fsTemplate ∧
    (main fsBadValue).1 = fsBadValue ∧
    (main fsTemplate).1 = fsTemplate :=
  ⟨(load_pure fsTemplate).1,
   (load_pure fsBadValue).2.1 rfl,
   (load_pure fsTemplate).2.2 exampleDoc rfl⟩

/-- C8 counterexample: loading a well-formed config whose engine entry
omits `extra_args` and `use_merge_arg` yields an engine table with no
such keys at all — not one where they equal `[]` and `false`.  `load`
returns `tomllib`'s mapping as-is and applies no defaults. -/
theorem load_defaults_cex :
    (load fsC8).2 = .ok doc8 ∧
    lookupKey engineTable8 "extra_args" = none ∧
    lookupKey engineTable8 "use_merge_arg" = none ∧
    lookupKey engineTable8 "extra_args" ≠ some (.arr []) ∧
    lookupKey engineTable8 "use_merge_arg" ≠ some (.boolean false) := by
  refine ⟨rfl, rfl, rfl, ?_, ?_⟩ <;> intro h
  · have h2 : (none : Option TomlValue) = some (.arr []) := h
    exact Option.noConfusion h2
  · have h2 : (none : Option TomlValue) = some (.boolean false) := h
    exact Option.noConfusion h2

/-- C8 (amended): `load` applies no defaults — when a loaded document's
engine entry omits the optional fields, the in-memory engine table
simply lacks those keys; the documented defaults are guidance for
consumers, not applied at load time. -/
theorem load_no_defaults (fs : FS) (f : FileState) (doc : Toml)
    (engines etbl : List (String × TomlValue)) (e : String)
    (hf : fs.file = some f) (hr : f.readable = true)
    (hp : parseToml f.content = some doc)
    (hengines : lookupKey doc "engines" = some (.table engines))
    (he : lookupKey engines e = some (.table etbl))
    (hx : lookupKey etbl "extra_args" = none)
    (hu : lookupKey etbl "use_merge_arg" = none) :
    (load fs).2 = .ok doc ∧
    lookupKey etbl "extra_args" = none ∧
    lookupKey etbl "use_merge_arg" = none := by
  have hl := load_of_parse_ok fs f doc hf hr hp
  exact ⟨by rw [hl], hx, hu⟩

/-- C8 witness: the amended no-defaults behavior at the concrete
optional-fields-omitted config. -/
theorem load_no_defaults_witness :
    (load fsC8).2 = .ok doc8 ∧
    lookupKey engineTable8 "extra_args" = none ∧
    lookupKey engineTable8 "use_merge_arg" = none :=
  load_no_defaults fsC8 { content := c8Config, readable := true } doc8
    [("e", .table engineTable8)] engineTable8 "e" rfl rfl rfl rfl rfl rfl rfl

/-- C9: a readable config file that exists but does not parse crashes
the entry point with the uncaught parse error (a `ValueError`, not the
`IOError` class the handler catches): `init` never runs and the on-disk
file is byte-for-byte unchanged. -/
theorem main_parse_atomic (fs : FS) (f : FileState)
    (hf : fs.file = some f) (hr : f.readable = true)
    (hp : parseToml f.content = none) :
    main fs = (fs, .crashedParse) ∧ (main fs).1.file = some f := by
  have hl := load_of_parse_fail fs f hf hr hp
  have hm : main fs = (fs, .crashedParse) := by unfold main; rw [hl]
  exact ⟨hm, by rw [hm]; exact hf⟩

/-- C9 witness: a malformed value line crashes the run and the corrupt
file survives untouched. -/
theorem main_parse_atomic_witness :
    main fsBadValue = (fsBadValue, .crashedParse) ∧
    (main fsBadValue).1.file = some { content := "kind = ", readable := true } :=
  main_parse_atomic fsBadValue { content := "kind = ", readable := true } rfl rfl rfl

/-- C10: `load` imposes no schema — whenever the file exists, is
readable and parses, the parsed mapping is returned as-is; an empty
file yields the empty mapping, a file without an `engines` table loads
fine, and an engine entry missing every required field loads fine. -/
theorem load_no_schema :
    (∀ fs f doc, fs.file = some f → f.readable = true →
      parseToml f.content = some doc → (load fs).2 = .ok doc) ∧
    (load fsEmptyFile).2 = .ok [] ∧
    (load fsNoEngines).2 = .ok [("other", .table [("x", .boolean true)])] ∧
    (load fsMissingReq).2 = .ok
      [("engines", .table [("e", .table [("use_merge_arg", .boolean true)])])] := by
  refine ⟨?_, rfl, rfl, rfl⟩
  intro fs f doc hf hr hp
  rw [load_of_parse_ok fs f doc hf hr hp]

/-- C10 witness: the schema-free clause applied at the P3 document. -/
theorem load_no_schema_witness : (load fsP3).2 = .ok p3Doc :=
  load_no_schema.1 fsP3 { content := p3Config, readable := true } p3Doc rfl rfl rfl

end Playdoom
